import Mathlib

/-!
Shallow embedding of the RISE pipeline (src/rise/app/api/services/rise.py and
src/rise/app/cache.py).  Pure Python fragments become Lean functions; the
external collaborators (geopandas, hydromt_sfincs, the filesystem, the
discharge provider) become explicit parameters of an environment record, and
the two mutable locations the pipeline touches (the region geojson file and
the model-bundle store) become an explicit world record threaded through the
pipeline.  Geometries are modelled as finite sets of points, timestamps as
hours after the configured start time.
-/

/-- Abstract failure kinds.  The spec-level names (`MalformedRequest`,
`PersistError`, ...) are used where the code's exception corresponds to them;
`KeyError`, `IndexError`, `ShapeError`, `RaggedArray` model the Python
exceptions (`KeyError` from `flood_root[_id]`, `IndexError` from numpy fancy
indexing, `ValueError` from `pd.DataFrame` shape checking and ragged
`np.array`). -/
inductive Err where
  | MalformedRequest
  | SubsetError
  | GridConstructionError
  | ElevationSamplingError
  | ForcingDataUnavailable
  | OrderingMismatch
  | PersistError
  | KeyError
  | IndexError
  | ShapeError
  | RaggedArray
  | StructuresError
  deriving DecidableEq

/-- First index of `c` in the list, `none` when absent (helper for the model
of Python `str.find` / `str.rfind`). -/
def findIdxFrom (c : Char) : List Char → Option Nat
  | [] => none
  | x :: xs => if x = c then some 0 else (findIdxFrom c xs).map (· + 1)

/-- Python `s.find(c)`: first index of `c`, `-1` when absent. -/
def pyFind (s : List Char) (c : Char) : Int :=
  match findIdxFrom c s with
  | some i => (i : Int)
  | none => -1

/-- Python `s.rfind(c)`: last index of `c`, `-1` when absent (computed from
the first occurrence in the reversed string). -/
def pyRfind (s : List Char) (c : Char) : Int :=
  match findIdxFrom c s.reverse with
  | some i => (s.length : Int) - 1 - i
  | none => -1

/-- Adjust one Python slice bound for a string of length `n`: negative bounds
count from the end, bounds are clamped to `[0, n]`. -/
def sliceIdx (n : Nat) (i : Int) : Nat :=
  if i < 0 then (i + n).toNat else min i.toNat n

/-- Python `s[a:b]` (step 1). -/
def pySlice (s : List Char) (a b : Int) : List Char :=
  (s.drop (sliceIdx s.length a)).take (sliceIdx s.length b - sliceIdx s.length a)

/-- JSON values, as produced by `json.loads`.  Numbers are modelled as
integers: the pipeline never inspects the decoded value, so fractional and
exponent forms are not needed. -/
inductive Json where
  | null
  | bool (b : Bool)
  | num (n : Int)
  | str (s : List Char)
  | arr (elems : List Json)
  | obj (members : List (List Char × Json))

/-- Drop leading JSON whitespace. -/
def skipWs : List Char → List Char
  | [] => []
  | c :: cs => if c = ' ' ∨ c = '\t' ∨ c = '\n' ∨ c = '\r' then skipWs cs else c :: cs

/-- Parse a run of decimal digits into a number, with the rest of the input. -/
def parseDigits (s : List Char) : Option (Nat × List Char) :=
  let ds := s.takeWhile (fun c => c.isDigit)
  if ds.isEmpty then none
  else some (ds.foldl (fun a c => a * 10 + (c.toNat - 48)) 0, s.drop ds.length)

/-- Parse an optionally signed integer literal. -/
def parseNum (s : List Char) : Option (Int × List Char) :=
  match s with
  | '-' :: rest => (parseDigits rest).map (fun p => (-(p.1 : Int), p.2))
  | _ => (parseDigits s).map (fun p => ((p.1 : Int), p.2))

/-- Parse the body of a JSON string after the opening quote, up to the
closing quote.  Escapes are not interpreted: `read_message` strips every
backslash from the payload before parsing. -/
def parseStrBody : List Char → Option (List Char × List Char)
  | [] => none
  | c :: cs =>
    if c = '"' then some ([], cs)
    else (parseStrBody cs).map (fun p => (c :: p.1, p.2))

mutual

/-- Fuel-indexed recursive-descent parser for one JSON value, returning the
value and the unconsumed input (model of `json.loads`). -/
def parseVal : Nat → List Char → Option (Json × List Char)
  | 0, _ => none
  | fuel + 1, s =>
    match skipWs s with
    | [] => none
    | c :: cs =>
      if c = '{' then
        match skipWs cs with
        | '}' :: rest => some (Json.obj [], rest)
        | s1 =>
          match parseObjItems fuel s1 with
          | some (ms, rest) => some (Json.obj ms, rest)
          | none => none
      else if c = '[' then
        match skipWs cs with
        | ']' :: rest => some (Json.arr [], rest)
        | s1 =>
          match parseArrItems fuel s1 with
          | some (vs, rest) => some (Json.arr vs, rest)
          | none => none
      else if c = '"' then
        (parseStrBody cs).map (fun p => (Json.str p.1, p.2))
      else if ['t', 'r', 'u', 'e'].isPrefixOf (c :: cs) then
        some (Json.bool true, (c :: cs).drop 4)
      else if ['f', 'a', 'l', 's', 'e'].isPrefixOf (c :: cs) then
        some (Json.bool false, (c :: cs).drop 5)
      else if ['n', 'u', 'l', 'l'].isPrefixOf (c :: cs) then
        some (Json.null, (c :: cs).drop 4)
      else
        (parseNum (c :: cs)).map (fun p => (Json.num p.1, p.2))

/-- Parse one or more `"key": value` members of a JSON object, ending at the
closing brace. -/
def parseObjItems : Nat → List Char → Option (List (List Char × Json) × List Char)
  | 0, _ => none
  | fuel + 1, s =>
    match skipWs s with
    | '"' :: cs =>
      match parseStrBody cs with
      | none => none
      | some (key, r1) =>
        match skipWs r1 with
        | ':' :: r2 =>
          match parseVal fuel r2 with
          | none => none
          | some (v, r3) =>
            match skipWs r3 with
            | ',' :: r4 => (parseObjItems fuel r4).map (fun p => ((key, v) :: p.1, p.2))
            | '}' :: r4 => some ([(key, v)], r4)
            | _ => none
        | _ => none
    | _ => none

/-- Parse one or more elements of a JSON array, ending at the closing
bracket. -/
def parseArrItems : Nat → List Char → Option (List Json × List Char)
  | 0, _ => none
  | fuel + 1, s =>
    match parseVal fuel s with
    | none => none
    | some (v, r1) =>
      match skipWs r1 with
      | ',' :: r2 => (parseArrItems fuel r2).map (fun p => (v :: p.1, p.2))
      | ']' :: r2 => some ([v], r2)
      | _ => none

end

/-- `json.loads`: parse a complete JSON document; trailing content other than
whitespace is an error. -/
def jsonParse (s : List Char) : Option Json :=
  match parseVal (s.length + 1) s with
  | some (v, rest) => if skipWs rest = [] then some v else none
  | none => none

/-- The substring `read_message` hands to the JSON parser: the span from the
first `{` to the last `}` (Python slice semantics, including the `-1`
returned when a brace is absent), with every backslash removed
(`.replace` of a single backslash with the empty string). -/
def extractSpan (s : List Char) : List Char :=
  (pySlice s (pyFind s '{') (pyRfind s '}' + 1)).filter (fun c => ¬ c = '\\')

/-- `RISE.read_message`: decode the payload, slice from the first `{` to the
last `}`, strip backslashes, parse as JSON; any parse failure raises
(modelled as `MalformedRequest`). -/
def read_message (body : List Char) : Except Err Json :=
  match jsonParse (extractSpan body) with
  | some v => Except.ok v
  | none => Except.error Err.MalformedRequest

/-- A geometry, modelled as a finite set of points. -/
abbrev Region := Finset Nat

/-- One row of a GeoDataFrame: the `id` column and the `geometry` column. -/
structure Feature where
  fid : String
  geometry : Region
  deriving DecidableEq

/-- The value returned by `formatting_sfincs.create_subset(file_path,
start_node, end_node)`: the nexus, flowline and divide layers of the subset
plus the coordinate reference system of the divides
(`_subset_divides.crs`).  The unused fourth return value
(`flowpath_attributes`) is omitted. -/
structure Subset where
  nexus : List Feature
  flowlines : List Feature
  divides : List Feature
  crs : String
  deriving DecidableEq

/-- `SfincsModel` as the pipeline accumulates it: extent/rotation from
`setup_grid_from_region`, elevation from `setup_dep`, the active mask, the
water-level bounds, and the inflow-point index that `setup_river_inflow`
registers (`sf.forcing["dis"].index`). -/
structure Grid where
  region : Region
  res : Nat
  rotated : Bool
  crs : String
  dep : Option Nat
  activeMask : Option Region
  bounds : Option Region
  inflowIndex : List String
  deriving DecidableEq

/-- The discharge forcing table `dispd = pd.DataFrame(index=time,
columns=index, data=dis)`. -/
structure ForcingTable where
  index : List Nat
  columns : List String
  data : List (List Int)
  deriving DecidableEq

/-- The persisted model configuration written by `sf.write()`. -/
structure Bundle where
  grid : Grid
  forcing : ForcingTable
  structures : Nat
  tref : String
  tstart : String
  tstop : String
  deriving DecidableEq

/-- The external collaborators of `process_request`, fixed for one process:
the responses of the data providers and the behaviour of the library calls.
Every field is a value or a pure function, so a run is determined by the
environment, the payload and the initial world. -/
structure Env where
  /-- `Path.cwd()`. -/
  cwd : String
  /-- Response of `formatting_sfincs.create_subset` at the hardcoded
  arguments (nextgen_11.gpkg, start and end node). -/
  createSubset : Except Err Subset
  /-- `setup_grid_from_region`: the extent and rotation derived from the
  region geometry alone (`res` and `rotated` are constants). -/
  deriveExtent : Region → Region
  /-- `setup_dep` sampling the 10m lidar source over the grid; `none` means
  no coverage. -/
  elevSample : Region → Option Nat
  /-- Whether a filesystem write to the given path fails. -/
  writeFails : String → Bool
  /-- `workflows.flwdir.river_source_points(gdf_riv, gdf_mask, ...)`. -/
  riverSrcPoints : List Feature → Region → List Feature
  /-- The inflow-point index `setup_river_inflow` registers on the grid. -/
  inflowIdx : List Feature → Region → List String
  /-- `shapely.buffer` by a distance. -/
  bufferGeom : Region → Nat → Region
  /-- The `id` column of `gpd.overlay(gdf_src, buffered_lines,
  how="intersection")`, in row order. -/
  overlayIds : List Feature → List Feature → List String
  /-- `formatting_sfincs.get_event_data(...)`: the per-segment discharge
  record `flood_root`, keyed by segment id. -/
  eventData : Except Err (String → Option (List Int))
  /-- `setup_structures` reading the levee geojson. -/
  structuresData : Except Err Nat

/-- The mutable locations a run touches: the geojson files on disk and the
model-bundle store (`root_dir`, written only by `sf.write()`). -/
structure World where
  fs : String → Option Region
  store : Option Bundle

/-- `start_node = "nex-2177032"`. -/
def start_node : String := "nex-2177032"

/-- `end_node = "nex-2175887"`. -/
def end_node : String := "nex-2175887"

/-- The id of the outflow divide, `"wb-2175886"`. -/
def outflowId : String := "wb-2175886"

/-- The two headwater segment ids kept from the intersection,
`["wb-2177031", "wb-2176992"]`. -/
def headwaterIds : List String := ["wb-2177031", "wb-2176992"]

/-- `mapping_flows_order = np.array([1, 0])`. -/
def mapping_flows_order : List Nat := [1, 0]

/-- The geojson file `setup_grid_from_region` reads:
`Path.cwd() / "data/NWM/flowlines_divides.geojson"`. -/
def readPath (env : Env) : String := env.cwd ++ "/data/NWM/flowlines_divides.geojson"

/-- The path the merged region polygon is written to:
`output_divides = "/app/data/NWM/flowlines_divides.geojson"`. -/
def writePath : String := "/app/data/NWM/flowlines_divides.geojson"

/-- The model root directory `Path.cwd() / "data/SFINCS/ngwpc_data"` the
bundle is persisted to. -/
def bundlePath (env : Env) : String := env.cwd ++ "/data/SFINCS/ngwpc_data"

/-- `unary_union` over the geometry column. -/
def unionAll (features : List Feature) : Region :=
  features.foldl (fun acc f => acc ∪ f.geometry) ∅

/-- `utils.parse_datetime` on the two configured instants, in hours after
2019-05-20 00:00:00 (`tstart`); `tstop` is 7 days = 168 hours later. -/
def parse_datetime (s : String) : Nat :=
  if s = "20190520 000000" then 0
  else if s = "20190527 000000" then 168
  else 0

/-- `pd.date_range(start, end, periods=n)`: `n` evenly spaced instants from
`start` to `stop` inclusive. -/
def dateRange (start stop : Nat) (periods : Nat) : List Nat :=
  (List.range periods).map (fun i => start + i * ((stop - start) / (periods - 1)))

/-- The time axis of the forcing table:
`pd.date_range(tstart, tstop, periods=8)`. -/
def timeAxis : List Nat :=
  dateRange (parse_datetime "20190520 000000") (parse_datetime "20190527 000000") 8

/-- `xs[::24]`: every 24th element, starting at index 0. -/
def stride24 (xs : List Int) : List Int :=
  (xs.enum.filter (fun p => p.1 % 24 = 0)).map Prod.snd

/-- `flood_root[_id][::24][:-1]`: decimate by 24 and drop the final trailing
point. -/
def decimate (xs : List Int) : List Int := (stride24 xs).dropLast

/-- The fetch loop `for _id in _subset_intersection["id"]:
dis.append(flood_root[_id][::24][:-1])`; a missing id raises `KeyError`. -/
def fetchDis : List String → (String → Option (List Int)) → Except Err (List (List Int))
  | [], _ => Except.ok []
  | i :: is, floodRoot =>
    match floodRoot i with
    | none => Except.error Err.KeyError
    | some xs =>
      match fetchDis is floodRoot with
      | Except.error e => Except.error e
      | Except.ok rest => Except.ok (decimate xs :: rest)

/-- `np.array(dis)` succeeds on a list of equal-length rows (and on the
empty list); a ragged list raises. -/
def rectangular (m : List (List Int)) : Bool :=
  match m with
  | [] => true
  | r :: rs => rs.all (fun x => x.length = r.length)

/-- Numpy fancy indexing `dis[mapping]`: select the rows at the given
indices; an out-of-range index raises `IndexError`. -/
def fancy (m : List (List Int)) : List Nat → Except Err (List (List Int))
  | [] => Except.ok []
  | i :: is =>
    match m.get? i with
    | none => Except.error Err.IndexError
    | some r =>
      match fancy m is with
      | Except.error e => Except.error e
      | Except.ok rs => Except.ok (r :: rs)

/-- `dis.T` on a rectangular 2-D array. -/
def tpose : List (List Int) → List (List Int)
  | [] => []
  | r :: rs =>
    match rs with
    | [] => r.map (fun x => [x])
    | _ :: _ => List.zipWith (fun x row => x :: row) r (tpose rs)

/-- Lines 122-134 of `process_request`: fetch and decimate the discharge
series in the order of `_subset_intersection["id"]`, stack them
(`np.array`), apply the hardcoded `mapping_flows_order` permutation,
transpose, and build `dispd = pd.DataFrame(index=time, columns=index,
data=dis)`, whose constructor raises when the data shape does not match the
index and column lengths. -/
def resolveForcing (ids : List String) (floodRoot : String → Option (List Int))
    (gridIndex : List String) (time : List Nat) : Except Err ForcingTable :=
  match fetchDis ids floodRoot with
  | Except.error e => Except.error e
  | Except.ok dis0 =>
    if rectangular dis0 then
      match fancy dis0 mapping_flows_order with
      | Except.error e => Except.error e
      | Except.ok dis =>
        let disT := tpose dis
        if disT.length = time.length ∧ dis.length = gridIndex.length then
          Except.ok ⟨time, gridIndex, disT⟩
        else Except.error Err.ShapeError
    else Except.error Err.RaggedArray

/-- `RISE.process_request`, with the mutable world threaded explicitly: the
decoded message is discarded, the subset is computed, the grid is built from
the region geojson file on disk, elevation is sampled, the divides are
merged and written to the side-channel path (unguarded), the masks and the
river inflow index are set, the event data is read, the source points are
intersected with the buffered flowlines and filtered to the two headwater
ids, the forcing table is resolved, structures are attached, and finally
`sf.write()` persists the bundle.  Any failure propagates immediately with
the world as it stands at that point. -/
def processRequest (env : Env) (body : List Char) (w : World) : Except Err Bundle × World :=
  match read_message body with
  | Except.error e => (Except.error e, w)
  | Except.ok _ =>
    match env.createSubset with
    | Except.error e => (Except.error e, w)
    | Except.ok sub =>
      match w.fs (readPath env) with
      | none => (Except.error Err.GridConstructionError, w)
      | some fileRegion =>
        let grid0 : Grid :=
          ⟨env.deriveExtent fileRegion, 50, true, sub.crs, none, none, none, []⟩
        match env.elevSample grid0.region with
        | none => (Except.error Err.ElevationSamplingError, w)
        | some dep =>
          let merged := unionAll sub.divides
          if env.writeFails writePath then (Except.error Err.PersistError, w)
          else
            let w1 : World :=
              ⟨fun p => if p = writePath then some merged else w.fs p, w.store⟩
            let outflow := sub.divides.filter (fun f => f.fid = outflowId)
            let grid1 : Grid :=
              ⟨grid0.region, 50, true, sub.crs, some dep, some merged,
                some (unionAll outflow),
                env.inflowIdx sub.flowlines grid0.region⟩
            match env.eventData with
            | Except.error e => (Except.error e, w1)
            | Except.ok floodRoot =>
              let gdfSrc := env.riverSrcPoints sub.flowlines grid1.region
              let buffered := sub.flowlines.map
                (fun f => (⟨f.fid, env.bufferGeom f.geometry 50⟩ : Feature))
              let interIds := env.overlayIds gdfSrc buffered
              let subsetIds := interIds.filter (fun i => headwaterIds.contains i)
              match resolveForcing subsetIds floodRoot grid1.inflowIndex timeAxis with
              | Except.error e => (Except.error e, w1)
              | Except.ok tbl =>
                match env.structuresData with
                | Except.error e => (Except.error e, w1)
                | Except.ok structs =>
                  if env.writeFails (bundlePath env) then (Except.error Err.PersistError, w1)
                  else
                    let b : Bundle :=
                      ⟨grid1, tbl, structs, "20190520 000000", "20190520 000000",
                        "20190527 000000"⟩
                    (Except.ok b, ⟨w1.fs, some b⟩)

/-- An opaque `ConsumerManager`; object identity is modelled by an
allocation number. -/
structure ConsumerManager where
  objId : Nat
  deriving DecidableEq

/-- Process-wide state relevant to `cache.py`: the allocation counter, the
`lru_cache` cell of `get_consumer_manager`, and how many times the
`ConsumerManager` constructor has run. -/
structure ProcState where
  nextId : Nat
  cacheCM : Option ConsumerManager
  ctorRuns : Nat
  deriving DecidableEq

/-- `@lru_cache def get_consumer_manager(): return ConsumerManager()` —
on a cache miss construct and memoize, on a hit return the cached object
unchanged. -/
def get_consumer_manager (s : ProcState) : ConsumerManager × ProcState :=
  match s.cacheCM with
  | some m => (m, s)
  | none => (⟨s.nextId⟩, ⟨s.nextId + 1, some ⟨s.nextId⟩, s.ctorRuns + 1⟩)

/-- A fresh process: nothing cached, constructor never run. -/
def freshProc : ProcState := ⟨0, none, 0⟩

/-- `n` successive calls of `get_consumer_manager`, keeping only the state. -/
def callN : Nat → ProcState → ProcState
  | 0, s => s
  | n + 1, s => callN n (get_consumer_manager s).2

/-- A concrete discharge record: hourly data for the two headwater segments
over the configured window (193 samples each), distinguishable values. -/
def floodOk : String → Option (List Int) := fun i =>
  if i = "wb-2177031" then some (List.replicate 193 1)
  else if i = "wb-2176992" then some (List.replicate 193 2)
  else none

/-- A concrete three-segment subset (two headwaters and the outflow
divide). -/
def subOk : Subset :=
  ⟨[], [⟨"wb-2177031", {1}⟩, ⟨"wb-2176992", {2}⟩, ⟨"wb-2175886", {3}⟩],
    [⟨"wb-2177031", {1}⟩, ⟨"wb-2176992", {2}⟩, ⟨"wb-2175886", {3}⟩], "EPSG:5070"⟩

/-- A fully healthy environment: every provider answers, no write fails, the
grid extent is the region geometry itself, the grid registers the two inflow
points `p0, p1`, and the overlay lists both headwater ids (plus one interior
id that the filter drops). -/
def envOk : Env :=
  ⟨"/app", Except.ok subOk, id, fun _ => some 7, fun _ => false,
    fun _ _ => [⟨"src0", {1}⟩, ⟨"src1", {2}⟩],
    fun _ _ => ["p0", "p1"],
    fun r _ => r,
    fun _ _ => ["wb-2177031", "wb-2176992", "other"],
    Except.ok floodOk, Except.ok 9⟩

/-- An initial world whose region geojson file holds the geometry `{5}`
(left there by some earlier run) and whose bundle store is empty. -/
def w0 : World :=
  ⟨fun p => if p = "/app/data/NWM/flowlines_divides.geojson" then some {5} else none, none⟩

/-- Like `w0` but with `{6}` in the region geojson file. -/
def w6 : World :=
  ⟨fun p => if p = "/app/data/NWM/flowlines_divides.geojson" then some {6} else none, none⟩

/-- A well-formed payload: the message text `\x7b\x7d`. -/
def bodyOk : List Char := ['{', '}']

instance {e a : Type} [DecidableEq e] [DecidableEq a] : DecidableEq (Except e a) := fun x y =>
  match x, y with
  | Except.ok u, Except.ok v =>
    if h : u = v then isTrue (by rw [h]) else isFalse (by simp [h])
  | Except.error u, Except.error v =>
    if h : u = v then isTrue (by rw [h]) else isFalse (by simp [h])
  | Except.ok _, Except.error _ => isFalse (by simp)
  | Except.error _, Except.ok _ => isFalse (by simp)

/-- A discharge record that is too short: 100 hourly samples instead of the
canonical 193 for the configured window. -/
def floodShort : String → Option (List Int) := fun i =>
  if i = "wb-2177031" then some (List.replicate 100 1)
  else if i = "wb-2176992" then some (List.replicate 100 2)
  else none

/-- The forcing table the resolver produces from `floodOk` when the fetch
order is `["wb-2177031", "wb-2176992"]`: the fixed `[1, 0]` mapping puts the
second fetched series first. -/
def tblOk : ForcingTable :=
  ⟨timeAxis, ["p0", "p1"],
    [[2, 1], [2, 1], [2, 1], [2, 1], [2, 1], [2, 1], [2, 1], [2, 1]]⟩

/-- Inverting numpy fancy indexing at the constant `mapping_flows_order =
[1, 0]`: success selects exactly the rows at indices 1 and 0. -/
lemma fancy_pair_inv {m : List (List Int)} {dis : List (List Int)}
    (h : fancy m mapping_flows_order = Except.ok dis) :
    ∃ r1 r0, m.get? 1 = some r1 ∧ m.get? 0 = some r0 ∧ dis = [r1, r0] := by
  unfold mapping_flows_order at h
  simp only [fancy] at h
  cases h1 : m.get? 1 with
  | none => rw [h1] at h; simp at h
  | some r1 =>
    rw [h1] at h
    dsimp only at h
    cases h0 : m.get? 0 with
    | none => rw [h0] at h; simp at h
    | some r0 =>
      rw [h0] at h
      simp at h
      exact ⟨_, _, rfl, rfl, h.symm⟩

/-- Each row of the transpose of a two-row array has two entries. -/
lemma mem_tpose_pair {r : List Int} {a b : List Int}
    (h : r ∈ tpose [a, b]) : r.length = 2 := by
  have he : tpose [a, b] = List.zipWith (fun x row => x :: row) a (b.map (fun y => [y])) := by
    simp [tpose]
  rw [he] at h
  clear he
  induction a generalizing b with
  | nil => simp [List.zipWith] at h
  | cons x xs ih =>
    cases b with
    | nil => simp [List.zipWith] at h
    | cons y ys =>
      simp [List.zipWith] at h
      rcases h with h | h
      · simp [h]
      · exact ih h

/-- What a successful forcing resolution guarantees: the table's index is the
given time axis, its column labels are exactly the grid index, its row count
equals the time-axis length, the grid index has exactly two entries (the
length of the fixed mapping), and every data row has two entries. -/
lemma resolveForcing_ok_inv {ids : List String} {fr : String → Option (List Int)}
    {gi : List String} {t : List Nat} {tbl : ForcingTable}
    (h : resolveForcing ids fr gi t = Except.ok tbl) :
    tbl.index = t ∧ tbl.columns = gi ∧ tbl.data.length = t.length ∧
      gi.length = 2 ∧ ∀ r ∈ tbl.data, r.length = 2 := by
  unfold resolveForcing at h
  cases hf : fetchDis ids fr with
  | error e => rw [hf] at h; exact absurd h (by simp)
  | ok dis0 =>
    rw [hf] at h
    dsimp only at h
    by_cases hrect : rectangular dis0 = true
    · rw [if_pos hrect] at h
      cases hfan : fancy dis0 mapping_flows_order with
      | error e => rw [hfan] at h; exact absurd h (by simp)
      | ok dis =>
        rw [hfan] at h
        dsimp only at h
        by_cases hshape : (tpose dis).length = t.length ∧ dis.length = gi.length
        · rw [if_pos hshape] at h
          obtain ⟨r1, r0, h1, h0, hdis⟩ := fancy_pair_inv hfan
          subst hdis
          injection h with h2
          subst h2
          refine ⟨rfl, rfl, hshape.1, ?_, ?_⟩
          · have h3 := hshape.2
            simpa using h3.symm
          · intro r hr
            exact mem_tpose_pair hr
        · rw [if_neg hshape] at h; exact absurd h (by simp)
    · rw [if_neg hrect] at h; exact absurd h (by simp)

set_option maxRecDepth 8000

/-- C1 (amended): whenever the forcing resolution succeeds, the column
labels of the resolved ForcingSeries are exactly the grid's registered
inflow-point index — but only the labels: the data columns are assembled
from the fetch order through the fixed `[1, 0]` permutation, so the
resolver does not re-sort internally (see the counterexample). -/
theorem C1_fixed_mapping_columns (ids : List String) (fr : String → Option (List Int))
    (gi : List String) (tbl : ForcingTable)
    (h : resolveForcing ids fr gi timeAxis = Except.ok tbl) :
    tbl.columns = gi := (resolveForcing_ok_inv h).2.1

/-- C1 witness: a concrete successful resolution whose column labels are the
grid's inflow index. -/
theorem C1_fixed_mapping_columns_witness :
    resolveForcing ["wb-2177031", "wb-2176992"] floodOk ["p0", "p1"] timeAxis =
        Except.ok tblOk ∧
      tblOk.columns = ["p0", "p1"] :=
  ⟨by decide,
    C1_fixed_mapping_columns ["wb-2177031", "wb-2176992"] floodOk ["p0", "p1"] tblOk
      (by decide)⟩

/-- C1 counterexample: permuting the raw fetch order before resolution
changes the final forcing table, because the resolver applies the fixed
permutation `[1, 0]` to whatever order it is handed instead of re-sorting
by identifier. -/
theorem C1_fetch_order_cex :
    (["wb-2176992", "wb-2177031"] : List String).Perm ["wb-2177031", "wb-2176992"] ∧
      (resolveForcing ["wb-2176992", "wb-2177031"] floodOk ["p0", "p1"] timeAxis).toOption ≠
        (resolveForcing ["wb-2177031", "wb-2176992"] floodOk ["p0", "p1"] timeAxis).toOption := by
  constructor
  · decide
  · decide

/-- C6 (amended): there is no explicit OrderingMismatch check; the only
always-run count check is the table constructor's shape check, which on
success forces the grid's inflow index to have exactly 2 entries (the length
of the fixed mapping) and the data row count to equal the time-axis length.
Surplus resolved series beyond the two the mapping selects are silently
dropped (see the counterexample). -/
theorem C6_shape_check_only (ids : List String) (fr : String → Option (List Int))
    (gi : List String) (t : List Nat) (tbl : ForcingTable)
    (h : resolveForcing ids fr gi t = Except.ok tbl) :
    gi.length = 2 ∧ tbl.data.length = t.length :=
  ⟨(resolveForcing_ok_inv h).2.2.2.1, (resolveForcing_ok_inv h).2.2.1⟩

/-- C6 witness: a concrete successful resolution with a two-point grid index
and an eight-row table. -/
theorem C6_shape_check_only_witness :
    resolveForcing ["wb-2177031", "wb-2176992"] floodOk ["p0", "p1"] timeAxis =
        Except.ok tblOk ∧
      (["p0", "p1"] : List String).length = 2 ∧ tblOk.data.length = timeAxis.length :=
  ⟨by decide,
    (C6_shape_check_only ["wb-2177031", "wb-2176992"] floodOk ["p0", "p1"] timeAxis tblOk
      (by decide)).1,
    (C6_shape_check_only ["wb-2177031", "wb-2176992"] floodOk ["p0", "p1"] timeAxis tblOk
      (by decide)).2⟩

/-- C6 counterexample: three discharge series are resolved against a grid
expecting two inflow points, yet the resolver succeeds — the fixed `[1, 0]`
mapping silently drops the surplus series, so no OrderingMismatch (nor any
other failure) is raised when the resolved series count differs from the
grid's inflow-point count. -/
theorem C6_no_ordering_check_cex :
    (resolveForcing ["wb-2177031", "wb-2176992", "wb-2177031"] floodOk ["p0", "p1"]
        timeAxis).isOk = true ∧
      (["wb-2177031", "wb-2176992", "wb-2177031"] : List String).length = 3 ∧
      (["p0", "p1"] : List String).length = 2 := by
  refine ⟨?_, rfl, rfl⟩
  decide

/-- C7 (amended): the time axis is the 8 evenly spaced timestamps spanning
the configured start and stop instants (daily steps of 24 hours), and every
successfully assembled ForcingSeries has exactly 8 rows aligned to that
axis, each row as wide as the grid index; the decimation (`[::24][:-1]`)
yields exactly 8 values on the canonical 193-sample fetched series — but
not on fetched series of other lengths (see the counterexample). -/
theorem C7_resampling_eight (ids : List String) (fr : String → Option (List Int))
    (gi : List String) (tbl : ForcingTable)
    (h : resolveForcing ids fr gi timeAxis = Except.ok tbl) :
    tbl.index = timeAxis ∧ timeAxis = [0, 24, 48, 72, 96, 120, 144, 168] ∧
      tbl.data.length = 8 ∧ (∀ r ∈ tbl.data, r.length = gi.length) ∧
      (decimate (List.replicate 193 (1 : Int))).length = 8 := by
  obtain ⟨hi, hc, hd, hg, hr⟩ := resolveForcing_ok_inv h
  refine ⟨hi, by decide, by rw [hd]; rfl, ?_, by decide⟩
  intro r hrr
  rw [hg]
  exact hr r hrr

/-- C7 witness: a concrete successful resolution whose index is the 8-point
time axis and whose table has 8 rows. -/
theorem C7_resampling_eight_witness :
    resolveForcing ["wb-2177031", "wb-2176992"] floodOk ["p0", "p1"] timeAxis =
        Except.ok tblOk ∧
      tblOk.index = timeAxis ∧ tblOk.data.length = 8 :=
  ⟨by decide,
    (C7_resampling_eight ["wb-2177031", "wb-2176992"] floodOk ["p0", "p1"] tblOk
      (by decide)).1,
    (C7_resampling_eight ["wb-2177031", "wb-2176992"] floodOk ["p0", "p1"] tblOk
      (by decide)).2.2.1⟩

/-- C7 counterexample: a fetched series of 100 samples is decimated to 4
values, not 8, and the assembly then fails with a shape error instead of
producing an 8-value column — so not every fetched series is resampled to
exactly 8 timestamps. -/
theorem C7_decimation_cex :
    (decimate (List.replicate 100 (5 : Int))).length = 4 ∧
      resolveForcing ["wb-2177031", "wb-2176992"] floodShort ["p0", "p1"] timeAxis =
        Except.error Err.ShapeError := by
  constructor
  · decide
  · decide

/-- The bundle `processRequest envOk bodyOk w0` writes: the grid extent is
the `{5}` geometry found in the region geojson file, while the active mask
is the freshly merged `{1, 2, 3}`. -/
def bundleOk : Bundle :=
  ⟨⟨{5}, 50, true, "EPSG:5070", some 7, some ({1, 2, 3} : Region), some ({3} : Region),
      ["p0", "p1"]⟩,
    tblOk, 9, "20190520 000000", "20190520 000000", "20190527 000000"⟩

/-- Like `envOk` but the write to the side-channel region path fails. -/
def envW : Env :=
  ⟨"/app", Except.ok subOk, id, fun _ => some 7, fun p => p == writePath,
    fun _ _ => [⟨"src0", {1}⟩, ⟨"src1", {2}⟩],
    fun _ _ => ["p0", "p1"],
    fun r _ => r,
    fun _ _ => ["wb-2177031", "wb-2176992", "other"],
    Except.ok floodOk, Except.ok 9⟩

/-- Like `envOk` but the elevation source has no coverage, so `setup_dep`
fails. -/
def envBad : Env :=
  ⟨"/app", Except.ok subOk, id, fun _ => none, fun _ => false,
    fun _ _ => [⟨"src0", {1}⟩, ⟨"src1", {2}⟩],
    fun _ _ => ["p0", "p1"],
    fun r _ => r,
    fun _ _ => ["wb-2177031", "wb-2176992", "other"],
    Except.ok floodOk, Except.ok 9⟩

/-- A placeholder bundle, used to vary the initial store contents. -/
def bundleDummy : Bundle :=
  ⟨⟨∅, 50, true, "", none, none, none, []⟩, ⟨[], [], []⟩, 0, "", "", ""⟩

/-- Like `w0` (same file contents at the region geojson path) but with junk
elsewhere on the filesystem and a non-empty bundle store. -/
def wAlt : World :=
  ⟨fun p => if p = "/app/data/NWM/flowlines_divides.geojson" then some {5} else some {7},
    some bundleDummy⟩

/-- A second payload: `x` + a one-member JSON object + `y`, which decodes to
a different value than `bodyOk`. -/
def bodyAlt : List Char := ['x', '{', '"', 'a', '"', ':', '1', '}', 'y']

/-- The bundle store after a run holds the new bundle exactly when the run
succeeded, and is otherwise untouched: the only store write in
`process_request` is the final `sf.write()`. -/
lemma processRequest_store_spec (env : Env) (b : List Char) (w : World) :
    (processRequest env b w).2.store =
      match (processRequest env b w).1 with
      | Except.ok bb => some bb
      | Except.error _ => w.store := by
  unfold processRequest
  rcases read_message b with e | v
  · rfl
  rcases env.createSubset with e | sub
  · rfl
  dsimp only
  rcases w.fs (readPath env) with _ | fileRegion
  · rfl
  dsimp only
  rcases env.elevSample (env.deriveExtent fileRegion) with _ | dep
  · rfl
  dsimp only
  cases env.writeFails writePath
  case true => rw [if_pos rfl]
  rw [if_neg (by simp)]
  rcases env.eventData with e | fr
  · rfl
  dsimp only
  rcases resolveForcing _ fr _ timeAxis with e | tbl
  · rfl
  dsimp only
  rcases env.structuresData with e | st
  · rfl
  dsimp only
  cases env.writeFails (bundlePath env)
  · rw [if_neg (by simp)]
  · rw [if_pos rfl]

/-- Inverting a successful run at its pair result (helper): the grid region
comes from `deriveExtent` of the file contents read at grid-setup time, the
elevation is sampled on that extent, and the final filesystem holds the
merged union at the side-channel path. -/
lemma processRequest_ok_inv (env : Env) (b : List Char) (w : World) (sub : Subset)
    (r0 : Region) (bundle : Bundle) (wOut : World)
    (hsub : env.createSubset = Except.ok sub)
    (hfile : w.fs (readPath env) = some r0)
    (hrun : processRequest env b w = (Except.ok bundle, wOut)) :
    bundle.grid.region = env.deriveExtent r0 ∧
      bundle.grid.dep = env.elevSample (env.deriveExtent r0) ∧
      wOut.fs writePath = some (unionAll sub.divides) := by
  unfold processRequest at hrun
  cases hm : read_message b with
  | error e => rw [hm] at hrun; exact absurd hrun (by simp)
  | ok v =>
    rw [hm, hsub] at hrun
    dsimp only at hrun
    rw [hfile] at hrun
    dsimp only at hrun
    cases helev : env.elevSample (env.deriveExtent r0) with
    | none => rw [helev] at hrun; exact absurd hrun (by simp)
    | some dep =>
      rw [helev] at hrun
      dsimp only at hrun
      cases hw : env.writeFails writePath with
      | true => rw [if_pos hw] at hrun; exact absurd hrun (by simp)
      | false =>
        rw [if_neg (by simp [hw])] at hrun
        cases hev : env.eventData with
        | error e => rw [hev] at hrun; exact absurd hrun (by simp)
        | ok fr =>
          rw [hev] at hrun
          dsimp only at hrun
          cases hres : resolveForcing
              (List.filter (fun i => headwaterIds.contains i)
                (env.overlayIds (env.riverSrcPoints sub.flowlines (env.deriveExtent r0))
                  (List.map (fun f => (⟨f.fid, env.bufferGeom f.geometry 50⟩ : Feature))
                    sub.flowlines)))
              fr (env.inflowIdx sub.flowlines (env.deriveExtent r0)) timeAxis with
          | error e => rw [hres] at hrun; exact absurd hrun (by simp)
          | ok tbl =>
            rw [hres] at hrun
            dsimp only at hrun
            cases hst : env.structuresData with
            | error e => rw [hst] at hrun; exact absurd hrun (by simp)
            | ok structs =>
              rw [hst] at hrun
              dsimp only at hrun
              cases hb : env.writeFails (bundlePath env) with
              | true => rw [if_pos hb] at hrun; exact absurd hrun (by simp)
              | false =>
                rw [if_neg (by simp [hb])] at hrun
                injection hrun with h1 h2
                injection h1 with h1
                subst h1
                subst h2
                refine ⟨rfl, rfl, ?_⟩
                simp

/-- C2 (amended): on a successful run, the grid's extent is derived from the
region-polygon file on disk at grid-setup time (the side-channel file a
previous run left behind), elevation is then sampled onto that grid, and
only afterwards is the union of the current subset's divides computed and
written to the side-channel path — so the extent does not come from the
current request's merged region (see the counterexample). -/
theorem C2_grid_from_stale_file (env : Env) (b : List Char) (w : World) (sub : Subset)
    (r0 : Region) (bundle : Bundle)
    (hsub : env.createSubset = Except.ok sub)
    (hfile : w.fs (readPath env) = some r0)
    (hrun : (processRequest env b w).1 = Except.ok bundle) :
    bundle.grid.region = env.deriveExtent r0 ∧
      bundle.grid.dep = env.elevSample (env.deriveExtent r0) ∧
      (processRequest env b w).2.fs writePath = some (unionAll sub.divides) := by
  have hpair : processRequest env b w = (Except.ok bundle, (processRequest env b w).2) := by
    rw [← hrun]
  exact processRequest_ok_inv env b w sub r0 bundle _ hsub hfile hpair

/-- C2 witness: a concrete successful run whose grid extent is the file
contents `{5}`, with elevation sampled on it, and whose final filesystem
holds the union `{1, 2, 3}` at the side-channel path. -/
theorem C2_grid_from_stale_file_witness :
    (processRequest envOk bodyOk w0).1 = Except.ok bundleOk ∧
      bundleOk.grid.region = envOk.deriveExtent ({5} : Region) ∧
      bundleOk.grid.dep = envOk.elevSample (envOk.deriveExtent ({5} : Region)) ∧
      (processRequest envOk bodyOk w0).2.fs writePath = some (unionAll subOk.divides) := by
  have h := C2_grid_from_stale_file envOk bodyOk w0 subOk ({5} : Region) bundleOk
    (by decide) (by decide) (by decide)
  exact ⟨by decide, h.1, h.2.1, h.2.2⟩

/-- C2 counterexample: two runs with the identical request, subset and
drainage polygons but different contents in the region geojson file produce
different grid extents — and neither equals the union of the current
subset's drainage polygons — so the extent is not derived from the
RegionOfInterest produced by the Spatial Merger for the current request. -/
theorem C2_grid_not_from_current_union_cex :
    ((processRequest envOk bodyOk w0).1.toOption.map (fun bb => bb.grid.region) =
        some ({5} : Region)) ∧
      ((processRequest envOk bodyOk w6).1.toOption.map (fun bb => bb.grid.region) =
        some ({6} : Region)) ∧
      envOk.deriveExtent (unionAll subOk.divides) = ({1, 2, 3} : Region) ∧
      ({5} : Region) ≠ ({1, 2, 3} : Region) ∧ ({6} : Region) ≠ ({1, 2, 3} : Region) := by
  refine ⟨by decide, by decide, by decide, by decide, by decide⟩

/-- C3 (amended): the pipeline is deterministic given its inputs — the
outcome depends on the initial filesystem only through the region geojson
file read at grid setup, so two runs from worlds agreeing there (same
request, same environment of provider responses) produce the identical
result; but a retry after a completed run is not idempotent, because the
first run overwrites that very file (see the counterexample). -/
theorem C3_deterministic_given_file (env : Env) (b : List Char) (w1 w2 : World)
    (h : w1.fs (readPath env) = w2.fs (readPath env)) :
    (processRequest env b w1).1 = (processRequest env b w2).1 := by
  unfold processRequest
  rw [h]
  rcases read_message b with e | v
  · rfl
  rcases env.createSubset with e | sub
  · rfl
  dsimp only
  rcases w2.fs (readPath env) with _ | fileRegion
  · rfl
  dsimp only
  rcases env.elevSample (env.deriveExtent fileRegion) with _ | dep
  · rfl
  dsimp only
  cases env.writeFails writePath
  case true => rw [if_pos rfl, if_pos rfl]
  rw [if_neg (by simp), if_neg (by simp)]
  rcases env.eventData with e | fr
  · rfl
  dsimp only
  rcases resolveForcing _ fr _ timeAxis with e | tbl
  · rfl
  dsimp only
  rcases env.structuresData with e | st
  · rfl
  dsimp only
  cases env.writeFails (bundlePath env)
  · rw [if_neg (by simp), if_neg (by simp)]
  · rw [if_pos rfl, if_pos rfl]

/-- C3 witness: two initial worlds that agree on the region geojson file but
differ elsewhere (junk files, a non-empty store) give the identical
outcome. -/
theorem C3_deterministic_given_file_witness :
    (processRequest envOk bodyOk w0).1 = (processRequest envOk bodyOk wAlt).1 :=
  C3_deterministic_given_file envOk bodyOk w0 wAlt (by decide)

/-- C3 counterexample: re-running the pipeline right after a completed run
yields a different bundle than the first run — the first run's grid extent
is the stale `{5}` from the file, the retry's is the `{1, 2, 3}` union the
first run wrote there — so a retried request is not an idempotent
re-execution. -/
theorem C3_retry_not_idempotent_cex :
    ((processRequest envOk bodyOk w0).1.toOption.map (fun bb => bb.grid.region) =
        some ({5} : Region)) ∧
      ((processRequest envOk bodyOk
            (processRequest envOk bodyOk w0).2).1.toOption.map (fun bb => bb.grid.region) =
        some ({1, 2, 3} : Region)) ∧
      (processRequest envOk bodyOk w0).1.toOption ≠
        (processRequest envOk bodyOk (processRequest envOk bodyOk w0).2).1.toOption := by
  refine ⟨by decide, by decide, by decide⟩

/-- C4 (amended): when the side-channel write of the merged region polygon
fails, the pipeline aborts — the write is not guarded by any error
handling, so the failure propagates, no run with a failing side-channel
write ever succeeds, and the bundle store is left untouched. -/
theorem C4_write_failure_aborts (env : Env) (b : List Char) (w : World)
    (h : env.writeFails writePath = true) :
    (processRequest env b w).1.isOk = false ∧
      (processRequest env b w).2.store = w.store := by
  have hok : (processRequest env b w).1.isOk = false := by
    unfold processRequest
    rcases read_message b with e | v
    · rfl
    rcases env.createSubset with e | sub
    · rfl
    dsimp only
    rcases w.fs (readPath env) with _ | fileRegion
    · rfl
    dsimp only
    rcases env.elevSample (env.deriveExtent fileRegion) with _ | dep
    · rfl
    dsimp only
    rw [if_pos h]
    rfl
  refine ⟨hok, ?_⟩
  have hs := processRequest_store_spec env b w
  cases hres : (processRequest env b w).1 with
  | error e => rw [hres] at hs; simpa using hs
  | ok bb => rw [hres] at hok; exact Bool.noConfusion hok

/-- C4 witness: a concrete environment whose only fault is the failing
side-channel write; the run does not succeed and the store stays empty. -/
theorem C4_write_failure_aborts_witness :
    (processRequest envW bodyOk w0).1.isOk = false ∧
      (processRequest envW bodyOk w0).2.store = w0.store :=
  C4_write_failure_aborts envW bodyOk w0 (by decide)

/-- C4 counterexample: with every other collaborator healthy, a failure of
the side-channel region write makes the whole run fail with the write's
error — the pipeline does not log and continue — and nothing is persisted:
the region file keeps its old contents and the store stays empty. -/
theorem C4_side_channel_abort_cex :
    (processRequest envW bodyOk w0).1 = Except.error Err.PersistError ∧
      (processRequest envW bodyOk w0).2.fs writePath = some ({5} : Region) ∧
      (processRequest envW bodyOk w0).2.store = none := by
  refine ⟨by decide, by decide, by decide⟩

/-- C5: a failure at any pipeline stage leaves the bundle store unchanged —
the bundle write (`sf.write()`) is the final step of the pipeline and runs
only after every prior stage has succeeded, so no partial bundle is ever
persisted. -/
theorem C5_no_partial_bundle (env : Env) (b : List Char) (w : World) (e : Err)
    (h : (processRequest env b w).1 = Except.error e) :
    (processRequest env b w).2.store = w.store := by
  have hs := processRequest_store_spec env b w
  rw [h] at hs
  simpa using hs

/-- C5 witness: a run that fails at the elevation stage leaves the (empty)
bundle store untouched. -/
theorem C5_no_partial_bundle_witness :
    (processRequest envBad bodyOk w0).1 = Except.error Err.ElevationSamplingError ∧
      (processRequest envBad bodyOk w0).2.store = w0.store :=
  ⟨by decide,
    C5_no_partial_bundle envBad bodyOk w0 Err.ElevationSamplingError (by decide)⟩

/-- C9: the decoded request content has no influence on the pipeline — the
result of `read_message` is discarded and every parameter (start node, end
node, outflow id, headwater ids, permutation mapping, time window) is a
constant — so any two payloads that both decode successfully produce the
identical run, outcome and final world alike. -/
theorem C9_payload_independent (env : Env) (w : World) (b1 b2 : List Char)
    (v1 v2 : Json)
    (h1 : read_message b1 = Except.ok v1) (h2 : read_message b2 = Except.ok v2) :
    processRequest env b1 w = processRequest env b2 w := by
  unfold processRequest
  rw [h1, h2]

/-- C9 witness: the empty-object payload and a noisy one-member-object
payload decode to different values yet give the identical run. -/
theorem C9_payload_independent_witness :
    processRequest envOk bodyOk w0 = processRequest envOk bodyAlt w0 :=
  C9_payload_independent envOk w0 bodyOk bodyAlt (Json.obj [])
    (Json.obj [(['a'], Json.num 1)]) rfl rfl

/-- Once the `lru_cache` cell is filled, further calls leave the process
state untouched. -/
lemma callN_cached (n : Nat) (s : ProcState) (m : ConsumerManager)
    (h : s.cacheCM = some m) : callN n s = s := by
  induction n with
  | zero => rfl
  | succ k ih => simp [callN, get_consumer_manager, h, ih]

/-- C10: `get_consumer_manager` is memoized — from any process state, a
second call returns the identical object and leaves the state unchanged
(repeated calls are identity-equal), and over any number of calls from a
fresh process the `ConsumerManager` constructor runs at most once. -/
theorem C10_manager_memoized (s : ProcState) (n : Nat) :
    (get_consumer_manager (get_consumer_manager s).2).1 = (get_consumer_manager s).1 ∧
      (get_consumer_manager (get_consumer_manager s).2).2 = (get_consumer_manager s).2 ∧
      (callN n freshProc).ctorRuns ≤ 1 := by
  refine ⟨?_, ?_, ?_⟩
  · cases hc : s.cacheCM <;> simp [get_consumer_manager, hc]
  · cases hc : s.cacheCM <;> simp [get_consumer_manager, hc]
  · cases n with
    | zero => decide
    | succ k =>
      have h1 : (get_consumer_manager freshProc).2 = ⟨1, some ⟨0⟩, 1⟩ := rfl
      have h2 : callN (k + 1) freshProc = callN k ⟨1, some ⟨0⟩, 1⟩ := by
        simp [callN, h1]
      rw [h2, callN_cached k ⟨1, some ⟨0⟩, 1⟩ ⟨0⟩ rfl]

/-- A character absent from a list is not found. -/
lemma findIdxFrom_eq_none {c : Char} {l : List Char} (h : c ∉ l) :
    findIdxFrom c l = none := by
  induction l with
  | nil => rfl
  | cons x xs ih =>
    simp only [List.mem_cons, not_or] at h
    unfold findIdxFrom
    rw [if_neg (fun hh => h.1 hh.symm), ih h.2]
    rfl

/-- A character present in a list is found at some index. -/
lemma findIdxFrom_of_mem {c : Char} {l : List Char} (h : c ∈ l) :
    ∃ i, findIdxFrom c l = some i := by
  induction l with
  | nil => cases h
  | cons x xs ih =>
    by_cases hx : x = c
    · exact ⟨0, by simp [findIdxFrom, hx]⟩
    · rcases List.mem_cons.mp h with h1 | h2
      · exact absurd h1.symm hx
      · obtain ⟨i, hi⟩ := ih h2
        exact ⟨i + 1, by simp [findIdxFrom, hx, hi]⟩

/-- A found index is in range. -/
lemma findIdxFrom_lt_length {c : Char} {l : List Char} {i : Nat}
    (h : findIdxFrom c l = some i) : i < l.length := by
  induction l generalizing i with
  | nil => cases h
  | cons x xs ih =>
    unfold findIdxFrom at h
    by_cases hx : x = c
    · rw [if_pos hx] at h
      injection h with h
      simp [← h]
    · rw [if_neg hx] at h
      obtain ⟨j, hj, hji⟩ := Option.map_eq_some'.mp h
      have := ih hj
      simp only [List.length_cons]
      omega

/-- A hit at index zero means the list starts with the character. -/
lemma findIdxFrom_zero_cons {c : Char} {l : List Char}
    (h : findIdxFrom c l = some 0) : ∃ t, l = c :: t := by
  cases l with
  | nil => cases h
  | cons x xs =>
    unfold findIdxFrom at h
    by_cases hx : x = c
    · exact ⟨xs, by rw [hx]⟩
    · rw [if_neg hx] at h
      obtain ⟨j, hj, hji⟩ := Option.map_eq_some'.mp h
      omega

/-- When the payload has no `\x7b` or no `\x7d`, the Python slice from the
first `\x7b` to the last `\x7d` (with `find`/`rfind` returning `-1`) is
either empty or the single closing brace — never a parseable document. -/
lemma extractSpan_of_no_pair {s : List Char} (h : '{' ∉ s ∨ '}' ∉ s) :
    extractSpan s = [] ∨ extractSpan s = ['}'] := by
  rcases h with h | h
  · have hf : pyFind s '{' = -1 := by
      unfold pyFind
      rw [findIdxFrom_eq_none h]
    by_cases hr : '}' ∈ s
    · have hrev : '}' ∈ s.reverse := List.mem_reverse.mpr hr
      obtain ⟨i, hi⟩ := findIdxFrom_of_mem hrev
      have hlen : i < s.length := by
        have := findIdxFrom_lt_length hi
        simpa using this
      have hrf : pyRfind s '}' = (s.length : Int) - 1 - i := by
        unfold pyRfind
        rw [hi]
      by_cases hi0 : i = 0
      · subst hi0
        obtain ⟨t, ht⟩ := findIdxFrom_zero_cons hi
        have hs : s = t.reverse ++ ['}'] := by
          have h2 := congrArg List.reverse ht
          simpa using h2
        right
        unfold extractSpan pySlice
        rw [hf, hrf]
        have hn : s.length = t.length + 1 := by
          rw [hs]
          simp
        have ha : sliceIdx s.length (-1) = t.length := by
          unfold sliceIdx
          rw [if_pos (by omega)]
          omega
        have hb : sliceIdx s.length ((s.length : Int) - 1 - ((0 : Nat) : Int) + 1) =
            s.length := by
          unfold sliceIdx
          rw [if_neg (by omega)]
          omega
        rw [ha, hb, hn]
        have hd : s.drop t.length = ['}'] := by
          conv_lhs => rw [hs]
          have hlt : t.length = t.reverse.length := by simp
          rw [hlt, List.drop_left]
        rw [hd]
        simp
      · left
        unfold extractSpan pySlice
        rw [hf, hrf]
        have hb : sliceIdx s.length ((s.length : Int) - 1 - i + 1) = s.length - i := by
          unfold sliceIdx
          rw [if_neg (by omega)]
          omega
        have ha : sliceIdx s.length (-1) = s.length - 1 := by
          unfold sliceIdx
          rw [if_pos (by omega)]
          omega
        rw [ha, hb]
        have hz : s.length - i - (s.length - 1) = 0 := by omega
        rw [hz]
        simp
    · have hrf : pyRfind s '}' = -1 := by
        unfold pyRfind
        rw [findIdxFrom_eq_none (fun hm => hr (List.mem_reverse.mp hm))]
      left
      unfold extractSpan pySlice
      rw [hrf]
      have hb : sliceIdx s.length ((-1 : Int) + 1) = 0 := by
        unfold sliceIdx
        rw [if_neg (by omega)]
        simp
      rw [hb]
      simp
  · have hrf : pyRfind s '}' = -1 := by
      unfold pyRfind
      rw [findIdxFrom_eq_none (fun hm => h (List.mem_reverse.mp hm))]
    left
    unfold extractSpan pySlice
    rw [hrf]
    have hb : sliceIdx s.length ((-1 : Int) + 1) = 0 := by
      unfold sliceIdx
      rw [if_neg (by omega)]
      simp
    rw [hb]
    simp

/-- C8: the Request Decoder slices from the first opening to the last
closing brace, strips backslashes and parses; for every payload in which no
such brace pair is found — and for every payload whose extracted span does
not parse as JSON — `read_message` fails with `MalformedRequest` instead of
returning a value. -/
theorem C8_decoder_malformed (s : List Char) :
    (('{' ∉ s ∨ '}' ∉ s) → read_message s = Except.error Err.MalformedRequest) ∧
      (jsonParse (extractSpan s) = none →
        read_message s = Except.error Err.MalformedRequest) := by
  constructor
  · intro h
    rcases extractSpan_of_no_pair h with he | he <;> unfold read_message <;> rw [he] <;> rfl
  · intro h
    unfold read_message
    rw [h]

/-- C8 witness: a payload with no braces at all, and a braced payload whose
enclosed text is not valid JSON, both fail with `MalformedRequest`. -/
theorem C8_decoder_malformed_witness :
    (('{' ∉ (['h', 'i'] : List Char) ∨ '}' ∉ (['h', 'i'] : List Char)) ∧
        read_message ['h', 'i'] = Except.error Err.MalformedRequest) ∧
      (jsonParse (extractSpan ['{', ':', '}']) = none ∧
        read_message ['{', ':', '}'] = Except.error Err.MalformedRequest) :=
  ⟨⟨by decide, (C8_decoder_malformed ['h', 'i']).1 (by decide)⟩,
    ⟨rfl, (C8_decoder_malformed ['{', ':', '}']).2 rfl⟩⟩
